import Mathlib

/-!
# Verification of `src/Collapse.js` (react-bootstrap Collapse component)

A shallow embedding of the Collapse component: the dimension-value
calculator, the five phase handlers, the chained-callback wiring, and the
prop forwarding performed by `render`.  JavaScript numbers on the code
paths involved are either integers (DOM offset/scroll extents) or `NaN`
(from a failed `parseInt`), so they are modelled by the two-constructor
type `JSNum`.  DOM side effects (inline style writes, forced layout reads)
are modelled by explicit state passing on an `Elem` record together with a
trace of `DomEvent`s.
-/

/-- The animated axis: `'height'` or `'width'` (`dimension` prop values). -/
inductive Dim where
  | height
  | width
deriving DecidableEq, Repr

/-- The four CSS margin properties named in `MARGINS` (Collapse.js lines 10-13). -/
inductive MarginSide where
  | marginTop
  | marginBottom
  | marginLeft
  | marginRight
deriving DecidableEq, Repr

/-- `MARGINS` (Collapse.js lines 10-13): the leading/trailing margin pair for
each axis: `height ↦ ['marginTop','marginBottom']`, `width ↦ ['marginLeft','marginRight']`. -/
def MARGINS : Dim → MarginSide × MarginSide
  | .height => (.marginTop, .marginBottom)
  | .width => (.marginLeft, .marginRight)

/-- A JavaScript number as it occurs on these code paths: an integer
(offset/scroll extents are integers, `parseInt` returns an integer on
success) or `NaN` (`parseInt` on a string with no leading integer). -/
inductive JSNum where
  | nan
  | num (n : Int)
deriving DecidableEq, Repr

/-- JavaScript `+` on the numbers occurring here: `NaN` absorbs. -/
def JSNum.add : JSNum → JSNum → JSNum
  | .num a, .num b => .num (a + b)
  | _, _ => .nan

instance : Add JSNum := ⟨JSNum.add⟩

/-- JavaScript number-to-string coercion (as in the template literal
`` `${value}px` ``) restricted to `JSNum`: integers print in decimal,
`NaN` prints as `"NaN"`. -/
def JSNum.toJSString : JSNum → String
  | .nan => "NaN"
  | .num n => toString n

/-- The longest leading run of decimal digits of a character list
(the digit-consuming loop of JavaScript `parseInt(s, 10)`). -/
def leadingDigits : List Char → List Char
  | [] => []
  | c :: cs => if c.isDigit then c :: leadingDigits cs else []

/-- JavaScript `parseInt(s, 10)`: skip leading whitespace, read an optional
sign, then the longest run of decimal digits; `NaN` when no digit follows
the optional sign, otherwise the signed integer those digits denote.
Unit suffixes (`"4px"` ↦ 4) are ignored; `parseInt` is called with an
explicit radix of 10 in Collapse.js lines 26-27, so no hex handling. -/
def jsParseInt (s : String) : JSNum :=
  let cs := s.data.dropWhile (fun c => c.isWhitespace)
  let signAndRest : Int × List Char :=
    match cs with
    | '-' :: rest => (-1, rest)
    | '+' :: rest => (1, rest)
    | _ => (1, cs)
  let ds := leadingDigits signAndRest.2
  if ds.isEmpty then .nan
  else .num (signAndRest.1 * (ds.foldl (fun a c => a * 10 + (c.toNat - '0'.toNat)) 0 : Nat))

/-- The DOM element as seen by Collapse.js: the laid-out offset extents,
the scrollable extents, the computed CSS margin strings returned by
`css(elem, margin)`, and the inline style values for the two axes
(`none` models an absent/cleared inline style, i.e. assignment of `null`). -/
structure Elem where
  offsetHeight : Int
  offsetWidth : Int
  scrollHeight : Int
  scrollWidth : Int
  marginTop : String
  marginBottom : String
  marginLeft : String
  marginRight : String
  styleHeight : Option String
  styleWidth : Option String
deriving DecidableEq, Repr

/-- `css(elem, prop)` (the dom-helpers computed-style getter, external to
this repository) on the four margin properties Collapse.js reads. -/
def css (e : Elem) : MarginSide → String
  | .marginTop => e.marginTop
  | .marginBottom => e.marginBottom
  | .marginLeft => e.marginLeft
  | .marginRight => e.marginRight

/-- ``elem[`offset${capitalize(dimension)}`]`` (Collapse.js line 22):
`offsetHeight` for the height axis, `offsetWidth` for the width axis. -/
def Elem.offsetValue (e : Elem) : Dim → Int
  | .height => e.offsetHeight
  | .width => e.offsetWidth

/-- ``elem[`scroll${capitalize(dimension)}`]`` (Collapse.js line 142). -/
def Elem.scrollValue (e : Elem) : Dim → Int
  | .height => e.scrollHeight
  | .width => e.scrollWidth

/-- Read the inline style for an axis (`elem.style[dimension]`). -/
def Elem.getStyle (e : Elem) : Dim → Option String
  | .height => e.styleHeight
  | .width => e.styleWidth

/-- Write the inline style for an axis (`elem.style[dimension] = v`;
`v = none` models assignment of `null`, which clears the style). -/
def Elem.setStyle (e : Elem) (d : Dim) (v : Option String) : Elem :=
  match d with
  | .height => { e with styleHeight := v }
  | .width => { e with styleWidth := v }

/-- An observable DOM action performed by a phase handler, in order. -/
inductive DomEvent where
  | styleWrite (d : Dim) (v : Option String)
  | readOffset (d : Dim)
deriving DecidableEq, Repr

/-- `getDimensionValue(dimension, elem)` (Collapse.js lines 21-29):
`elem[offset…] + parseInt(css(elem, margins[0]), 10) + parseInt(css(elem, margins[1]), 10)`. -/
def getDimensionValue (dimension : Dim) (elem : Elem) : JSNum :=
  let value : JSNum := .num (elem.offsetValue dimension)
  let margins := MARGINS dimension
  value + jsParseInt (css elem margins.1) + jsParseInt (css elem margins.2)

/-- `triggerBrowserReflow(node)` (Collapse.js lines 17-19): reads
`node.offsetHeight` and discards the result.  It is a total function: the
read is an ordinary property access that returns normally for every
element; its only observable effect is the forced layout read. -/
def triggerBrowserReflow (_node : Elem) : List DomEvent :=
  [.readOffset .height]

/-- The `dimension` prop (Collapse.js lines 92-95): either an axis literal
or a zero-argument function returning one.  A JavaScript closure may return
different values on successive calls; the model indexes each call by the
moment `t : Nat` at which it happens, so `f : Nat → Dim` is the function's
value at each invocation time. -/
inductive DimensionProp where
  | literal (d : Dim)
  | function (f : Nat → Dim)

/-- A user-supplied phase callback: receives the element (the same mutable
node the internal handler just acted on, modelled by state threading) and
performs its own DOM actions. -/
def UserHandler : Type := Elem → Elem × List DomEvent

/-- The props of `Collapse` after React applies `defaultProps`
(Collapse.js lines 31-121).  `in` is a Lean keyword, hence the field name
`in_`; optional props with no default are `Option`-valued. -/
structure Props where
  in_ : Bool
  mountOnEnter : Bool
  unmountOnExit : Bool
  transitionAppear : Bool
  timeout : Nat
  dimension : DimensionProp
  getDimensionValue : Dim → Elem → JSNum
  role : Option String
  className : Option String
  onEnter : Option UserHandler
  onEntering : Option UserHandler
  onEntered : Option UserHandler
  onExit : Option UserHandler
  onExiting : Option UserHandler
  onExited : Option UserHandler

/-- `defaultProps` (Collapse.js lines 112-121); props with no default are
absent (`none`). -/
def defaultProps : Props where
  in_ := false
  timeout := 300
  mountOnEnter := false
  unmountOnExit := false
  transitionAppear := false
  dimension := .literal .height
  getDimensionValue := getDimensionValue
  role := none
  className := none
  onEnter := none
  onEntering := none
  onEntered := none
  onExit := none
  onExiting := none
  onExited := none

/-- `this._dimension()` (Collapse.js lines 134-138): a function-valued
`dimension` prop is called afresh (at the current time `t`), a literal is
returned as is. -/
def dimResolve (p : Props) (t : Nat) : Dim :=
  match p.dimension with
  | .function f => f t
  | .literal d => d

/-- `this._getScrollDimensionValue(elem, dimension)` (Collapse.js
lines 141-143): the scroll extent along the axis suffixed with `px`. -/
def getScrollDimensionValue (elem : Elem) (dimension : Dim) : String :=
  toString (elem.scrollValue dimension) ++ "px"

/-- `handleEnter(elem)` (Collapse.js lines 146-149): resolve the dimension,
set its inline style to `'0'`. -/
def handleEnter (p : Props) (t : Nat) (elem : Elem) : Elem × List DomEvent :=
  let dimension := dimResolve p t
  (elem.setStyle dimension (some "0"), [.styleWrite dimension (some "0")])

/-- `handleEntered(elem)` (Collapse.js lines 151-154): resolve the
dimension, clear its inline style (assign `null`). -/
def handleEntered (p : Props) (t : Nat) (elem : Elem) : Elem × List DomEvent :=
  let dimension := dimResolve p t
  (elem.setStyle dimension none, [.styleWrite dimension none])

/-- `handleEntering(elem)` (Collapse.js lines 156-159): resolve the
dimension, set its inline style to the scroll extent pixel string. -/
def handleEntering (p : Props) (t : Nat) (elem : Elem) : Elem × List DomEvent :=
  let dimension := dimResolve p t
  let v := getScrollDimensionValue elem dimension
  (elem.setStyle dimension (some v), [.styleWrite dimension (some v)])

/-- `handleExit(elem)` (Collapse.js lines 162-166): resolve the dimension,
set its inline style to `` `${this.props.getDimensionValue(dimension, elem)}px` ``,
then call `triggerBrowserReflow(elem)`. -/
def handleExit (p : Props) (t : Nat) (elem : Elem) : Elem × List DomEvent :=
  let dimension := dimResolve p t
  let v := (p.getDimensionValue dimension elem).toJSString ++ "px"
  let elem1 := elem.setStyle dimension (some v)
  (elem1, [.styleWrite dimension (some v)] ++ triggerBrowserReflow elem1)

/-- `handleExiting(elem)` (Collapse.js lines 168-171): resolve the
dimension, set its inline style to `'0'`. -/
def handleExiting (p : Props) (t : Nat) (elem : Elem) : Elem × List DomEvent :=
  let dimension := dimResolve p t
  (elem.setStyle dimension (some "0"), [.styleWrite dimension (some "0")])

/-- Modelled from the spec: `createChainedFunction` lives in
`src/utils/createChainedFunction.js`, which is not under `src/`.  Per the
spec, a chained callback is "an ordered pair (internal handler, optional
external handler) invoked in sequence; absence of the external handler is a
no-op continuation, not an error", with the external handler "invoked after
the internal action in the same call, with the same arguments" — modelled
by running the internal handler first and, when present, the external one
on the resulting element (the same mutable node), concatenating traces. -/
def createChainedFunction (f : Elem → Elem × List DomEvent) (g : Option UserHandler) :
    Elem → Elem × List DomEvent :=
  fun elem =>
    let r := f elem
    match g with
    | none => r
    | some g => let r2 := g r.1; (r2.1, r.2 ++ r2.2)

/-- `classNames(className, classes)` (the external `classnames` helper,
outside this repository's scope) specialised to its use at Collapse.js
line 200: one optional string argument and the object `{width: flag}`.
Falsy arguments (`undefined`, the empty string, a false flag) are skipped;
the rest are joined with a single space. -/
def classNames (className : Option String) (widthFlag : Bool) : String :=
  let parts := (match className with
    | some s => if s = "" then [] else [s]
    | none => []) ++ (if widthFlag then ["width"] else [])
  String.intercalate " " parts

/-- JavaScript truthiness of the `role` prop (a string or absent), as
tested by `props.role ? props.in : null`: absent and the empty string are
falsy. -/
def jsTruthyString : Option String → Bool
  | none => false
  | some s => !(s == "")

/-- The props `render` passes to the `<Transition>` delegate (Collapse.js
lines 196-211).  `dimension` and `getDimensionValue` have no field here:
they are deleted before the spread (lines 178-179).  The five chained phase
callbacks take the invocation time `t` (for per-call dimension
resolution) and the element. -/
structure TransitionProps where
  in_ : Bool
  mountOnEnter : Bool
  unmountOnExit : Bool
  transitionAppear : Bool
  timeout : Nat
  role : Option String
  ariaExpanded : Option Bool
  className : String
  exitedClassName : String
  exitingClassName : String
  enteredClassName : String
  enteringClassName : String
  onEnter : Nat → Elem → Elem × List DomEvent
  onEntering : Nat → Elem → Elem × List DomEvent
  onEntered : Nat → Elem → Elem × List DomEvent
  onExit : Nat → Elem → Elem × List DomEvent
  onExiting : Nat → Elem → Elem × List DomEvent
  onExited : Option UserHandler

/-- `width: this._dimension() === 'width'` (Collapse.js lines 192-194):
the structural class flag computed at render time `tr`. -/
def widthClassFlag (p : Props) (tr : Nat) : Bool :=
  dimResolve p tr == Dim.width

/-- `render()` (Collapse.js lines 173-212): destructure the five user
phase callbacks and `className` out of the props, delete `dimension` and
`getDimensionValue`, wire each phase through `createChainedFunction`
(internal handler first, user callback second), compute the `width` class
flag and `aria-expanded={props.role ? props.in : null}`, and pass
everything else through to `<Transition>` unchanged (`onExited` among
them).  `tr` is the render moment, at which `this._dimension()` is
evaluated for the class flag. -/
def render (p : Props) (tr : Nat) : TransitionProps where
  in_ := p.in_
  mountOnEnter := p.mountOnEnter
  unmountOnExit := p.unmountOnExit
  transitionAppear := p.transitionAppear
  timeout := p.timeout
  role := p.role
  ariaExpanded := if jsTruthyString p.role then some p.in_ else none
  className := classNames p.className (widthClassFlag p tr)
  exitedClassName := "collapse"
  exitingClassName := "collapsing"
  enteredClassName := "collapse in"
  enteringClassName := "collapsing"
  onEnter := fun t => createChainedFunction (handleEnter p t) p.onEnter
  onEntering := fun t => createChainedFunction (handleEntering p t) p.onEntering
  onEntered := fun t => createChainedFunction (handleEntered p t) p.onEntered
  onExit := fun t => createChainedFunction (handleExit p t) p.onExit
  onExiting := fun t => createChainedFunction (handleExiting p t) p.onExiting
  onExited := p.onExited

/-- Run an optional user callback on an element; absence is a no-op
continuation producing no events. -/
def runUser (g : Option UserHandler) (e : Elem) : Elem × List DomEvent :=
  match g with
  | none => (e, [])
  | some g => g e

/-- Every inline style write in a trace targets the axis `d`. -/
def writesOnly (d : Dim) (evs : List DomEvent) : Prop :=
  ∀ d' v, DomEvent.styleWrite d' v ∈ evs → d' = d

/-- A concrete element matching the spec's scenario: `offsetHeight=40`,
`marginTop=4px`, `marginBottom=6px`. -/
def specElem : Elem where
  offsetHeight := 40
  offsetWidth := 100
  scrollHeight := 70
  scrollWidth := 120
  marginTop := "4px"
  marginBottom := "6px"
  marginLeft := "1px"
  marginRight := "2px"
  styleHeight := none
  styleWidth := none

/-- A concrete element whose `marginTop` computed style is the malformed
(no leading integer) string `"auto"`. -/
def badMarginElem : Elem := { specElem with marginTop := "auto" }

/-- A concrete user callback: records one style write. -/
def userCbW : UserHandler :=
  fun e => (e.setStyle .height (some "55px"), [.styleWrite .height (some "55px")])

/-- Concrete props with a user `onEnter` callback and no user `onExit`. -/
def chainedProps : Props := { defaultProps with onEnter := some userCbW }

/-- A dimension function whose value changes between successive calls. -/
def flipDim : Nat → Dim := fun t => if t == 0 then .height else .width

/-- Concrete props with a dynamic (function-valued) `dimension`. -/
def dynDimProps : Props := { defaultProps with dimension := .function flipDim }

/-- Concrete props with `role` present but equal to the empty string. -/
def roleEmptyProps : Props := { defaultProps with role := some "", in_ := true }

/-- Concrete props with a non-empty `role`. -/
def roleRegionProps : Props := { defaultProps with role := some "region", in_ := true }

/-- Concrete props animating the width axis. -/
def widthAxisProps : Props := { defaultProps with dimension := .literal .width }

/-- Concrete props with a caller `className` and the width axis. -/
def widthClassNameProps : Props :=
  { defaultProps with className := some "foo", dimension := .literal .width }

/-- Concrete props with a caller `className` and the default height axis. -/
def heightClassNameProps : Props := { defaultProps with className := some "foo" }

/-! ## Basic lemmas about the embedding -/

theorem JSNum.num_add_num (a b : Int) : JSNum.num a + JSNum.num b = JSNum.num (a + b) := rfl

theorem JSNum.nan_add (a : JSNum) : JSNum.nan + a = JSNum.nan := rfl

theorem JSNum.add_nan (a : JSNum) : a + JSNum.nan = JSNum.nan := by
  cases a <;> rfl

theorem Elem.getStyle_setStyle_same (e : Elem) (d : Dim) (v : Option String) :
    (e.setStyle d v).getStyle d = v := by
  cases d <;> rfl

theorem Elem.setStyle_width_styleHeight (e : Elem) (v : Option String) :
    (e.setStyle .width v).styleHeight = e.styleHeight := rfl

/-! ## The claims -/

/-- Claim C1: for an element with offset extent `E` along the resolved axis
and margins whose computed styles parse (as leading integers) to `m1` and
`m2`, `getDimensionValue` returns `E + m1 + m2`, and `handleExit` sets the
inline style for that axis to that sum suffixed with `px` (e.g.
`offsetHeight=40`, `marginTop=4`, `marginBottom=6` yields
`style.height='50px'`). -/
theorem collapse_exit_extent_and_style (e : Elem) (d : Dim) (m1 m2 : Int)
    (h1 : jsParseInt (css e (MARGINS d).1) = .num m1)
    (h2 : jsParseInt (css e (MARGINS d).2) = .num m2) :
    getDimensionValue d e = .num (e.offsetValue d + m1 + m2) ∧
    ∀ (p : Props) (t : Nat), dimResolve p t = d →
      p.getDimensionValue = getDimensionValue →
      (handleExit p t e).1.getStyle d =
        some (toString (e.offsetValue d + m1 + m2) ++ "px") := by
  have hval : getDimensionValue d e = .num (e.offsetValue d + m1 + m2) := by
    simp [getDimensionValue, h1, h2, JSNum.num_add_num]
  refine ⟨hval, ?_⟩
  intro p t hd hg
  simp [handleExit, hd, hg, hval, JSNum.toJSString, Elem.getStyle_setStyle_same]

/-- Witness for C1 at the spec's scenario element (`offsetHeight=40`,
`marginTop="4px"`, `marginBottom="6px"`, default props, height axis). -/
theorem collapse_exit_extent_and_style_witness :
    getDimensionValue .height specElem = .num 50 ∧
    (handleExit defaultProps 0 specElem).1.getStyle .height = some "50px" := by
  have h := collapse_exit_extent_and_style specElem .height 4 6 (by decide) (by decide)
  refine ⟨by simpa using h.1, by simpa using h.2 defaultProps 0 rfl rfl⟩

/-- Counterexample to C2: at an element whose `marginTop` computed style is
`"auto"` (no leading integer), `getDimensionValue` returns `NaN` — not the
numeric `40 + 0 + 6` the claim requires when the malformed margin were
treated as `0`. -/
theorem collapse_malformed_margin_counterexample :
    getDimensionValue .height badMarginElem = JSNum.nan ∧
    JSNum.nan ≠ JSNum.num (40 + 0 + 6) := by
  exact ⟨by decide, by decide⟩

/-- Claim C2 as amended: when either margin's computed style on the
resolved axis has no leading integer, `parseInt` yields `NaN`, which
propagates: `getDimensionValue` returns `NaN` (so it does not fail, but
produces the non-numeric sentinel rather than treating the margin as `0`),
and `handleExit` writes the string `'NaNpx'`. -/
theorem collapse_malformed_margin_nan (e : Elem) (d : Dim)
    (h : jsParseInt (css e (MARGINS d).1) = .nan ∨
         jsParseInt (css e (MARGINS d).2) = .nan) :
    getDimensionValue d e = JSNum.nan ∧
    ∀ (p : Props) (t : Nat), dimResolve p t = d →
      p.getDimensionValue = getDimensionValue →
      (handleExit p t e).1.getStyle d = some "NaNpx" := by
  have hval : getDimensionValue d e = JSNum.nan := by
    rcases h with h | h <;>
      simp [getDimensionValue, h, JSNum.nan_add, JSNum.add_nan]
  refine ⟨hval, ?_⟩
  intro p t hd hg
  simp [handleExit, hd, hg, hval, JSNum.toJSString, Elem.getStyle_setStyle_same]

/-- Witness for the amended C2 at the `marginTop="auto"` element. -/
theorem collapse_malformed_margin_nan_witness :
    getDimensionValue .height badMarginElem = JSNum.nan ∧
    (handleExit defaultProps 0 badMarginElem).1.getStyle .height = some "NaNpx" := by
  have h := collapse_malformed_margin_nan badMarginElem .height (Or.inl (by decide))
  exact ⟨h.1, h.2 defaultProps 0 rfl rfl⟩

/-- Claim C3: on the resolved axis, `handleEnter` sets the inline style to
`'0'`, `handleEntering` sets it to the element's scroll extent suffixed
with `px`, and `handleEntered` clears it (assigns `null`, modelled as
`none` — not `'0'`, not a residual value). -/
theorem collapse_expand_phase_styles (p : Props) (t : Nat) (e : Elem) :
    (handleEnter p t e).1.getStyle (dimResolve p t) = some "0" ∧
    (handleEntering p t e).1.getStyle (dimResolve p t) =
      some (toString (e.scrollValue (dimResolve p t)) ++ "px") ∧
    (handleEntered p t e).1.getStyle (dimResolve p t) = none := by
  refine ⟨?_, ?_, ?_⟩ <;>
    simp [handleEnter, handleEntering, handleEntered, getScrollDimensionValue,
      Elem.getStyle_setStyle_same]

/-- Claim C4: `handleExit`'s event trace is exactly the inline style write
followed by the forced layout read, so the write strictly precedes the
read; `triggerBrowserReflow` is a total function whose only effect is that
read — it returns normally on every element (no exceptional outcome). -/
theorem collapse_exit_write_before_reflow (p : Props) (t : Nat) (e : Elem) :
    (handleExit p t e).2 =
      [DomEvent.styleWrite (dimResolve p t)
        (some ((p.getDimensionValue (dimResolve p t) e).toJSString ++ "px")),
       DomEvent.readOffset .height] ∧
    ∀ e2 : Elem, triggerBrowserReflow e2 = [DomEvent.readOffset .height] := by
  exact ⟨rfl, fun _ => rfl⟩

/-- Claim C5: for each of the five phases, the composed callback `render`
wires runs the internal handler first and the optional user callback of the
same name second, on the same (threaded) element, with the traces
concatenated internal-first; when the user callback is absent the composed
callback equals the internal handler alone. -/
theorem collapse_chained_callback_order (p : Props) (tr t : Nat) (e : Elem) :
    ((render p tr).onEnter t e =
      ((runUser p.onEnter (handleEnter p t e).1).1,
       (handleEnter p t e).2 ++ (runUser p.onEnter (handleEnter p t e).1).2)) ∧
    ((render p tr).onEntering t e =
      ((runUser p.onEntering (handleEntering p t e).1).1,
       (handleEntering p t e).2 ++ (runUser p.onEntering (handleEntering p t e).1).2)) ∧
    ((render p tr).onEntered t e =
      ((runUser p.onEntered (handleEntered p t e).1).1,
       (handleEntered p t e).2 ++ (runUser p.onEntered (handleEntered p t e).1).2)) ∧
    ((render p tr).onExit t e =
      ((runUser p.onExit (handleExit p t e).1).1,
       (handleExit p t e).2 ++ (runUser p.onExit (handleExit p t e).1).2)) ∧
    ((render p tr).onExiting t e =
      ((runUser p.onExiting (handleExiting p t e).1).1,
       (handleExiting p t e).2 ++ (runUser p.onExiting (handleExiting p t e).1).2)) ∧
    (p.onEnter = none → (render p tr).onEnter t e = handleEnter p t e) ∧
    (p.onEntering = none → (render p tr).onEntering t e = handleEntering p t e) ∧
    (p.onEntered = none → (render p tr).onEntered t e = handleEntered p t e) ∧
    (p.onExit = none → (render p tr).onExit t e = handleExit p t e) ∧
    (p.onExiting = none → (render p tr).onExiting t e = handleExiting p t e) := by
  refine ⟨?_, ?_, ?_, ?_, ?_, ?_, ?_, ?_, ?_, ?_⟩
  · cases h : p.onEnter <;> simp [render, createChainedFunction, runUser, h]
  · cases h : p.onEntering <;> simp [render, createChainedFunction, runUser, h]
  · cases h : p.onEntered <;> simp [render, createChainedFunction, runUser, h]
  · cases h : p.onExit <;> simp [render, createChainedFunction, runUser, h]
  · cases h : p.onExiting <;> simp [render, createChainedFunction, runUser, h]
  · intro h; simp [render, createChainedFunction, h]
  · intro h; simp [render, createChainedFunction, h]
  · intro h; simp [render, createChainedFunction, h]
  · intro h; simp [render, createChainedFunction, h]
  · intro h; simp [render, createChainedFunction, h]

/-- Witness for C5: with a concrete user `onEnter` and no user `onExit`,
the composed `onExit` is the internal handler alone, and the composed
`onEnter` trace is the internal write followed by the user's write. -/
theorem collapse_chained_callback_order_witness :
    (render chainedProps 0).onExit 0 specElem = handleExit chainedProps 0 specElem ∧
    ((render chainedProps 0).onEnter 0 specElem).2 =
      [DomEvent.styleWrite .height (some "0"),
       DomEvent.styleWrite .height (some "55px")] := by
  have h := collapse_chained_callback_order chainedProps 0 0 specElem
  refine ⟨h.2.2.2.2.2.2.2.2.1 rfl, ?_⟩
  rw [h.1]
  rfl

/-- Claim C6: the `dimension` prop defaults to `'height'`, and when it is a
zero-argument function that function is re-evaluated afresh on each phase
handler invocation (each call at time `t` acts on `f t`, never on a cached
value). -/
theorem collapse_dimension_fresh_and_default :
    defaultProps.dimension = DimensionProp.literal .height ∧
    ∀ (p : Props) (f : Nat → Dim) (t : Nat) (e : Elem),
      p.dimension = .function f →
      dimResolve p t = f t ∧
      (handleEnter p t e).2 = [.styleWrite (f t) (some "0")] ∧
      (handleEntering p t e).2 =
        [.styleWrite (f t) (some (getScrollDimensionValue e (f t)))] ∧
      (handleEntered p t e).2 = [.styleWrite (f t) none] ∧
      (handleExit p t e).2 =
        [.styleWrite (f t) (some ((p.getDimensionValue (f t) e).toJSString ++ "px")),
         .readOffset .height] ∧
      (handleExiting p t e).2 = [.styleWrite (f t) (some "0")] := by
  refine ⟨rfl, ?_⟩
  intro p f t e hf
  have hd : dimResolve p t = f t := by simp [dimResolve, hf]
  exact ⟨hd, by simp [handleEnter, hd], by simp [handleEntering, hd],
    by simp [handleEntered, hd], by simp [handleExit, hd, triggerBrowserReflow],
    by simp [handleExiting, hd]⟩

/-- Witness for C6: with a dimension function whose value flips between
calls, the call at time 0 writes the height style and the call at time 1
writes the width style — the function is consulted afresh each time. -/
theorem collapse_dimension_fresh_and_default_witness :
    defaultProps.dimension = DimensionProp.literal .height ∧
    (handleEnter dynDimProps 0 specElem).2 = [.styleWrite .height (some "0")] ∧
    (handleEnter dynDimProps 1 specElem).2 = [.styleWrite .width (some "0")] := by
  have h := collapse_dimension_fresh_and_default
  have h0 := (h.2 dynDimProps flipDim 0 specElem rfl).2.1
  have h1 := (h.2 dynDimProps flipDim 1 specElem rfl).2.1
  exact ⟨h.1, h0, h1⟩

/-- Counterexample to C7: `role` is specified as the empty string — JS
`props.role ? props.in : null` tests truthiness, and the empty string is
falsy — so the claim's "emitted if and only if a role option is specified"
fails: the role is specified yet `aria-expanded` is absent. -/
theorem collapse_aria_counterexample :
    roleEmptyProps.role ≠ none ∧
    (render roleEmptyProps 0).ariaExpanded = none := by
  exact ⟨by simp [roleEmptyProps, defaultProps], rfl⟩

/-- Claim C7 as amended: the `aria-expanded` flag is emitted if and only if
a role is specified and non-empty (JS-truthy), in which case its value
equals the `in` intent; with no role, or an empty-string role, the flag is
absent (`null`), not `false`. -/
theorem collapse_aria_expanded (p : Props) (tr : Nat) :
    ((render p tr).ariaExpanded ≠ none ↔ ∃ r, p.role = some r ∧ r ≠ "") ∧
    (∀ r, p.role = some r → r ≠ "" → (render p tr).ariaExpanded = some p.in_) ∧
    (p.role = none → (render p tr).ariaExpanded = none) ∧
    (p.role = some "" → (render p tr).ariaExpanded = none) := by
  refine ⟨?_, ?_, ?_, ?_⟩
  · cases h : p.role with
    | none => simp [render, jsTruthyString, h]
    | some r =>
      by_cases hr : r = "" <;> simp [render, jsTruthyString, h, hr]
  · intro r h hr
    simp [render, jsTruthyString, h, hr]
  · intro h
    simp [render, jsTruthyString, h]
  · intro h
    simp [render, jsTruthyString, h]

/-- Witness for the amended C7: a non-empty role with `in = true` emits
`aria-expanded = true`. -/
theorem collapse_aria_expanded_witness :
    (render roleRegionProps 0).ariaExpanded = some true := by
  have h := (collapse_aria_expanded roleRegionProps 0).2.1 "region" rfl (by decide)
  simpa [roleRegionProps, defaultProps] using h

/-- Claim C8: the structural `width` class flag is true exactly when the
axis resolved at render time is `width` (and it is what `render` feeds into
the class-name computation), and on any invocation whose resolved axis is
`width` every phase handler leaves the inline height style untouched —
every style write in its trace targets the width axis. -/
theorem collapse_width_axis (p : Props) (tr t : Nat) (e : Elem) :
    (widthClassFlag p tr = true ↔ dimResolve p tr = .width) ∧
    (render p tr).className = classNames p.className (widthClassFlag p tr) ∧
    (dimResolve p t = .width →
      (handleEnter p t e).1.styleHeight = e.styleHeight ∧
      (handleEntering p t e).1.styleHeight = e.styleHeight ∧
      (handleEntered p t e).1.styleHeight = e.styleHeight ∧
      (handleExit p t e).1.styleHeight = e.styleHeight ∧
      (handleExiting p t e).1.styleHeight = e.styleHeight ∧
      writesOnly .width (handleEnter p t e).2 ∧
      writesOnly .width (handleEntering p t e).2 ∧
      writesOnly .width (handleEntered p t e).2 ∧
      writesOnly .width (handleExit p t e).2 ∧
      writesOnly .width (handleExiting p t e).2) := by
  refine ⟨?_, rfl, ?_⟩
  · simp [widthClassFlag]
  · intro hd
    refine ⟨?_, ?_, ?_, ?_, ?_, ?_, ?_, ?_, ?_, ?_⟩ <;>
      simp [handleEnter, handleEntering, handleEntered, handleExit, handleExiting,
        hd, Elem.setStyle_width_styleHeight, writesOnly, triggerBrowserReflow]

/-- Witness for C8 at concrete width-axis props: the flag is true, and the
exit handler preserves the height style with all writes targeting width. -/
theorem collapse_width_axis_witness :
    widthClassFlag widthAxisProps 0 = true ∧
    (handleExit widthAxisProps 0 specElem).1.styleHeight = specElem.styleHeight ∧
    writesOnly .width (handleExit widthAxisProps 0 specElem).2 := by
  have h := collapse_width_axis widthAxisProps 0 0 specElem
  have hw := h.2.2 rfl
  exact ⟨h.1.mpr rfl, hw.2.2.2.1, hw.2.2.2.2.2.2.2.2.1⟩

/-- Claim C9: the only layout read in `handleExit`'s trace is a read of
`offsetHeight` — `triggerBrowserReflow` reads `node.offsetHeight`
unconditionally, so even a width-axis collapse forces its reflow via a
height read and never via a width read. -/
theorem collapse_reflow_reads_offsetHeight (p : Props) (t : Nat) (e : Elem) :
    ((handleExit p t e).2.filter fun ev =>
      match ev with
      | .readOffset _ => true
      | _ => false) = [DomEvent.readOffset .height] ∧
    DomEvent.readOffset .width ∉ (handleExit p t e).2 ∧
    triggerBrowserReflow e = [DomEvent.readOffset .height] := by
  refine ⟨rfl, ?_, rfl⟩
  simp [handleExit, triggerBrowserReflow]

/-- Counterexample to C10: `className` is a supplied configuration option
and is not forwarded unchanged — with the width axis it is forwarded
combined with the structural `width` class (`"foo"` becomes `"foo width"`). -/
theorem collapse_forwarding_counterexample :
    widthClassNameProps.className = some "foo" ∧
    (render widthClassNameProps 0).className = "foo width" ∧
    "foo width" ≠ "foo" := by
  exact ⟨rfl, rfl, by decide⟩

/-- Claim C10 as amended: `dimension` and `getDimensionValue` are consumed
internally and have no counterpart among the delegate's props (the
`TransitionProps` record has no such fields), the five user phase callbacks
are replaced by their chained versions, and every other supplied option —
`in`, `mountOnEnter`, `unmountOnExit`, `transitionAppear`, `timeout`,
`role`, `onExited` — is forwarded unchanged; `className` alone is forwarded
combined with the structural width class, hence unchanged only when the
resolved axis is not `width`. -/
theorem collapse_forwarding (p : Props) (tr : Nat) :
    (render p tr).in_ = p.in_ ∧
    (render p tr).mountOnEnter = p.mountOnEnter ∧
    (render p tr).unmountOnExit = p.unmountOnExit ∧
    (render p tr).transitionAppear = p.transitionAppear ∧
    (render p tr).timeout = p.timeout ∧
    (render p tr).role = p.role ∧
    (render p tr).onExited = p.onExited ∧
    ((render p tr).onEnter = fun t => createChainedFunction (handleEnter p t) p.onEnter) ∧
    ((render p tr).onEntering = fun t => createChainedFunction (handleEntering p t) p.onEntering) ∧
    ((render p tr).onEntered = fun t => createChainedFunction (handleEntered p t) p.onEntered) ∧
    ((render p tr).onExit = fun t => createChainedFunction (handleExit p t) p.onExit) ∧
    ((render p tr).onExiting = fun t => createChainedFunction (handleExiting p t) p.onExiting) ∧
    (∀ c, p.className = some c → dimResolve p tr ≠ .width →
      (render p tr).className = c) := by
  refine ⟨rfl, rfl, rfl, rfl, rfl, rfl, rfl, rfl, rfl, rfl, rfl, rfl, ?_⟩
  intro c hc hd
  have hflag : widthClassFlag p tr = false := by
    simp [widthClassFlag, hd]
  by_cases hce : c = ""
  · simp [render, classNames, hflag, hc, hce, String.intercalate]
  · simp [render, classNames, hflag, hc, hce, String.intercalate]
    rfl

/-- Witness for the amended C10: with the default height axis a supplied
`className` passes through unchanged, as does `timeout`. -/
theorem collapse_forwarding_witness :
    (render heightClassNameProps 0).className = "foo" ∧
    (render heightClassNameProps 0).timeout = heightClassNameProps.timeout := by
  have h := collapse_forwarding heightClassNameProps 0
  exact ⟨h.2.2.2.2.2.2.2.2.2.2.2.2 "foo" rfl (by decide), h.2.2.2.2.1⟩
